import Mathlib

/-!
Verification of `keep_active.py`, a script that keeps a Microsoft Teams
window active by periodically simulating mouse movement, controlled by a
curses menu and a sentinel stop file.

The Python source is shallowly embedded below: pure fragments become Lean
functions; the menu/loop mutations of the global flags become explicit
state-passing over a `MState` record; filesystem and subprocess effects are
modelled by explicit inputs (file existence booleans, command results) and
outputs (event lists).
-/

namespace KeepActive

/-! ## String helpers mirroring Python primitives -/

/-- Characters Python's `str.strip()` removes (ASCII whitespace). -/
def isPySpace (c : Char) : Bool :=
  c = ' ' || c = '\t' || c = '\n' || c = '\r' || c = '\x0b' || c = '\x0c'

/-- Python `s.strip()`: remove leading and trailing whitespace. -/
def pyStrip (s : String) : String :=
  String.mk (((s.toList.dropWhile isPySpace).reverse.dropWhile isPySpace).reverse)

/-- Python `s.split('\n')` on the character list: pieces between newline
characters, in order ( `[] ↦ [""]`, `"\n" ↦ ["", ""]`, `"a\nb" ↦ ["a", "b"]` ). -/
def splitNl (cs : List Char) : List (List Char) :=
  match cs with
  | [] => [[]]
  | c :: rest =>
    let r := splitNl rest
    if c = '\n' then [] :: r
    else (c :: r.headD []) :: r.tail

/-! ## Constants (src/keep_active.py, lines 36-40) -/

def WINDOW_NAME : String := "Microsoft Teams"

def DEFAULT_INTERVAL : Int := 300

def CONTROL_FILE : String := "/tmp/stop_keep_active"

def LOG_FILE : String := "/tmp/keep_active.log"

/-! ## Window lookup and the loop cycle body

`find_window_id` (lines 68-81) runs `xdotool search --name <w>` with
`check=True`.  Its input here is the subprocess outcome: `none` models a
non-zero exit (`CalledProcessError`), `some out` a successful run with
stdout `out`.  The Python computes `result.stdout.strip().split('\n')[0]`. -/

def find_window_id (cmdResult : Option String) : Option String :=
  match cmdResult with
  | none => none
  | some out => some (String.mk ((splitNl (pyStrip out).toList).headD []))

/-- Python truthiness of the `Optional[str]` window id, as tested by
`if window_id:` on line 173: `None` and the empty string are falsy. -/
def truthy (w : Option String) : Bool :=
  match w with
  | none => false
  | some s => !(s == "")

/-- Observable outcome of one cycle of the activity loop body
(lines 170-178): either the interaction is invoked on the found id, or a
"Window not found!" event is logged and surfaced to the UI. -/
inductive CycleEvent where
  | interacted (windowId : String)
  | notFound
deriving DecidableEq

/-- One cycle of the loop body (lines 170-178): look up the window and
either interact with it or log/display the not-found message. -/
def cycleBody (windowId : Option String) : CycleEvent :=
  if truthy windowId then CycleEvent.interacted (windowId.getD "") else CycleEvent.notFound

/-- `n` consecutive loop cycles; `lookups k` is the subprocess outcome of
the `xdotool search` in cycle `k`. -/
def runCycles (lookups : Nat → Option String) (n : Nat) : List CycleEvent :=
  (List.range n).map (fun k => cycleBody (find_window_id (lookups k)))

/-! ## The pause-wait loop (lines 166-167)

`while is_paused: time.sleep(1)` polls the shared flags once per second.
`env k` is the value of the shared flags at second `k`; the loop checks
only `is_paused`.  `pauseWait fuel env t` returns `some r` when the wait
entered at second `t` exits at second `r` within `fuel` polls, `none` when
it is still blocked after `fuel` polls. -/

structure LoopEnv where
  is_paused : Bool
  is_running : Bool
  controlFile : Bool
deriving DecidableEq

def pauseWait : Nat → (Nat → LoopEnv) → Nat → Option Nat
  | 0, env, t => if (env t).is_paused then none else some t
  | fuel + 1, env, t => if (env t).is_paused then pauseWait fuel env (t + 1) else some t

/-! ## Elapsed time (get_elapsed_time, lines 189-200)

Timestamps are integer seconds.  The Python returns `"N/A"` when
`start_time` is unset, otherwise `(now - start_time)`, minus
`(now - paused_time)` when `paused_time` is set. -/

def get_elapsed_time (start_time paused_time : Option Int) (now : Int) : Option Int :=
  match start_time with
  | none => none
  | some s =>
    let elapsed := now - s
    match paused_time with
    | some p => some (elapsed - (now - p))
    | none => some elapsed

/-- Two-digit field of the `H:MM:SS` rendering. -/
def pad2 (n : Int) : String :=
  if n < 10 then "0" ++ toString n else toString n

/-- `str(timedelta).split('.')[0]` for a nonnegative whole-second span:
`H:MM:SS` with unpadded hours. -/
def formatHMS (e : Int) : String :=
  toString (e / 3600) ++ ":" ++ pad2 (e % 3600 / 60) ++ ":" ++ pad2 (e % 60)

/-- The elapsed-time readout string: the `"N/A"` placeholder when no
session has ever started, otherwise the formatted span. -/
def elapsedReadout (start_time paused_time : Option Int) (now : Int) : String :=
  match get_elapsed_time start_time paused_time now with
  | none => "N/A"
  | some e => formatHMS e

/-! ## Shutdown sequence (stop_script lines 90-96, cleanup_files lines 98-106) -/

structure FileSys where
  control : Bool
  logFile : Bool
deriving DecidableEq

/-- `cleanup_files` (lines 98-106): remove the control file if present,
then the log file if present, logging a "Removed" event for each.
Returns the resulting filesystem and the logged events in order. -/
def cleanup_files (fs : FileSys) : FileSys × List String :=
  let ctrlEvents := if fs.control then ["Removed " ++ CONTROL_FILE] else []
  let logEvents := if fs.logFile then ["Removed " ++ LOG_FILE] else []
  (⟨false, false⟩, ctrlEvents ++ logEvents)

/-- Outcome of one `stop_script` invocation: the value of `is_running`
afterwards, the filesystem afterwards, the log events emitted in order,
and whether `sys.exit(0)` was invoked before returning. -/
structure StopOutcome where
  is_running : Bool
  fs : FileSys
  events : List String
  callsSysExit : Bool
deriving DecidableEq

/-- `stop_script(signum, frame)` (lines 90-96): log "Stopping script...",
clear `is_running`, run `cleanup_files`, then call `sys.exit(0)`.
`signum` is `none` at the UI-driven call sites `stop_script(None, None)`
(lines 187, 307, 314) and `some n` when invoked as the SIGINT handler. -/
def stop_script (signum : Option Int) (fs : FileSys) : StopOutcome :=
  let (fs2, evs) := cleanup_files fs
  { is_running := false
    fs := fs2
    events := "Stopping script..." :: evs
    callsSysExit := (fun _ => true) signum }

/-! ## Log viewer (display_log, lines 111-126) -/

/-- `display_log`: input is `none` when the log file does not exist, else
`some lines` where `lines` is the `f.readlines()` result (each line keeps
its terminator).  Output is the list of rendered rows, in order: the
fixed message for a missing file, otherwise `line.strip()` of each line. -/
def display_log (readlinesResult : Option (List String)) : List String :=
  match readlinesResult with
  | none => ["Log file does not exist. No logs to display."]
  | some lines => lines.map pyStrip

/-! ## Interval modification (modify_interval, lines 128-152) -/

/-- `modify_interval`: given the current flags and interval and the
outcome of the `int(new_interval_str)` call on line 142, returns the
interval afterwards and the message rendered.  Like `subprocess.run` and
`argparse`, Python's `int()` is library behavior at the embedding's
boundary: every input string the user can type at the prompt determines
one outcome — `some n` when `int()` returns `n` (this includes PEP 515
underscore grouping and non-ASCII decimal digits), `none` when it raises
the `ValueError` caught on line 148 — and both outcomes are covered. -/
def modify_interval (is_running is_paused : Bool) (interval : Int)
    (parsedInput : Option Int) : Int × String :=
  if is_running || is_paused then
    (interval, "Cannot modify interval while the script is running or paused.")
  else
    match parsedInput with
    | some n =>
      if 0 < n then (n, "Interval set to " ++ toString n ++ " seconds.")
      else (interval, "Invalid input. Interval must be a positive integer.")
    | none => (interval, "Invalid input. Interval not changed.")

/-- The three rejection messages `modify_interval` can render. -/
def rejectionMessages : List String :=
  ["Cannot modify interval while the script is running or paused.",
   "Invalid input. Interval must be a positive integer.",
   "Invalid input. Interval not changed."]

/-! ## The menu state machine (menu, lines 211-321)

The shared globals `is_running`, `is_paused`, `interval`, `start_time`,
`paused_time`, plus the control-file existence, as one record.  Each menu
command and each state-mutating loop step becomes one transition. -/

structure MState where
  running : Bool
  paused : Bool
  interval : Int
  startTime : Option Int
  pausedTime : Option Int
  controlFile : Bool
deriving DecidableEq

/-- Initial state at process start (lines 50-54 with the parsed CLI
interval assigned on line 337). -/
def initState (cliInterval : Option Int) : MState :=
  { running := false
    paused := false
    interval := match cliInterval with | some n => n | none => DEFAULT_INTERVAL
    startTime := none
    pausedTime := none
    controlFile := false }

/-- State-mutating transitions: menu choices 1, 2, 4, 5, the
exit-confirmation branch of choice 6 up to `is_running = False`
(lines 300-306), and the `stop_script` call (reached from the loop's
self-termination on line 187 and from the exit paths on lines 307/314). -/
inductive Cmd where
  | start (now : Int)
  | stopCmd
  | modifyIntervalCmd (parsedInput : Option Int)
  | pauseToggle (now : Int)
  | exitConfirm
  | stopScriptStep
deriving DecidableEq

def menuStep (s : MState) : Cmd → MState
  | Cmd.start now =>
    if s.running then s
    else { s with running := true, startTime := some now }
  | Cmd.stopCmd =>
    if s.running then { s with controlFile := true } else s
  | Cmd.modifyIntervalCmd parsedInput =>
    { s with interval := (modify_interval s.running s.paused s.interval parsedInput).1 }
  | Cmd.pauseToggle now =>
    if s.running then
      if s.paused then { s with paused := false, pausedTime := none }
      else { s with paused := true, pausedTime := some now }
    else s
  | Cmd.exitConfirm =>
    if s.running then { s with controlFile := true, running := false } else s
  | Cmd.stopScriptStep =>
    { s with running := false, controlFile := false }

def menuRun (s : MState) : List Cmd → MState
  | [] => s
  | c :: cs => menuRun (menuStep s c) cs

/-! ## CLI argument parsing (parse_arguments, lines 323-332)

`argparse` with `type=int` and `default=DEFAULT_INTERVAL`: a present flag
contributes its parsed integer unchecked (a non-integer token aborts the
process inside argparse and never reaches the program, hence `Option Int`
as input); an absent flag yields the default. -/

def parse_arguments (cliInterval : Option Int) : Int :=
  match cliInterval with
  | some n => n
  | none => DEFAULT_INTERVAL

/-! ## Claim-side definitions (stated from the claims' words, to be
compared against the embedded code) -/

/-- From the claim's words: the first line of the command output. -/
def firstLineSpec (s : String) : String :=
  String.mk ((splitNl s.toList).headD [])

/-- Claim C1 formalized as stated: whenever the shared flags show
`is_running` false or the control file present at the second the pause
wait polls, the wait exits within one second. -/
def PauseWaitObservesStop : Prop :=
  ∀ env : Nat → LoopEnv, ∀ t : Nat,
    ((env t).is_running = false ∨ (env t).controlFile = true) →
    ∃ fuel r, pauseWait fuel env t = some r ∧ r ≤ t + 1

/-- Claim C2 formalized as stated: in every state reachable from the
initial state by menu commands and loop steps, `paused` implies `running`. -/
def PausedOnlyWhileRunning : Prop :=
  ∀ cmds : List Cmd,
    (menuRun (initState none) cmds).paused = true →
    (menuRun (initState none) cmds).running = true

/-- Claim C4's CLI part formalized as stated: every command-line argument
value yields a positive session interval. -/
def CliIntervalAlwaysPositive : Prop :=
  ∀ cli : Option Int, 0 < parse_arguments cli

/-- Claim C5's second part formalized as stated: a UI-driven invocation of
`stop_script` (the `stop_script(None, None)` call sites) returns normally,
without invoking `sys.exit`. -/
def UIStopReturnsNormally : Prop :=
  ∀ fs : FileSys, (stop_script none fs).callsSysExit = false

/-! ## Helper lemmas -/

/-- The pause wait never exits while `is_paused` stays true, whatever the
other flags do. -/
lemma pauseWait_allPaused (fuel : Nat) (env : Nat → LoopEnv) (t : Nat)
    (h : ∀ k, (env k).is_paused = true) : pauseWait fuel env t = none := by
  induction fuel generalizing t with
  | zero => simp [pauseWait, h t]
  | succ n ih => simp [pauseWait, h t, ih]

/-- Stripping is unaffected by one trailing newline (char-list form). -/
lemma stripList_append_nl (l : List Char) :
    ((l ++ ['\n']).dropWhile isPySpace).reverse.dropWhile isPySpace =
      (l.dropWhile isPySpace).reverse.dropWhile isPySpace := by
  induction l with
  | nil => simp [List.dropWhile, isPySpace]
  | cons c cs ih =>
    by_cases hc : isPySpace c = true
    · simpa [List.dropWhile_cons, hc] using ih
    · have hnl : isPySpace '\n' = true := rfl
      simp [List.dropWhile_cons, hc, hnl, List.reverse_append]

/-- Python `strip` removes a single trailing newline:
`(s + "\n").strip() = s.strip()`. -/
lemma pyStrip_append_newline (s : String) : pyStrip (s ++ "\n") = pyStrip s := by
  have hdata : (s ++ "\n").toList = s.toList ++ ['\n'] := String.data_append s "\n"
  simp only [pyStrip, hdata, stripList_append_nl]

/-! ## Claim C1: the pause-wait loop versus stop requests -/

/-- Claim C1 (counterexample): the pause-wait loop does not observe the
stop condition.  With `is_paused` held true, `is_running` false and the
stop file present, `while is_paused: time.sleep(1)` never exits, refuting
the claim that a stop requested while paused is observed within 1 second. -/
theorem c1_counterexample : ¬ PauseWaitObservesStop := by
  intro h
  obtain ⟨fuel, r, hw, -⟩ :=
    h (fun _ => { is_paused := true, is_running := false, controlFile := true }) 0 (Or.inl rfl)
  rw [pauseWait_allPaused fuel _ 0 (fun _ => rfl)] at hw
  exact Option.noConfusion hw

/-- The pause wait only ever exits at a second where `is_paused` is false. -/
lemma pauseWait_exit_unpaused : ∀ (fuel : Nat) (env : Nat → LoopEnv) (t r : Nat),
    pauseWait fuel env t = some r → (env r).is_paused = false := by
  intro fuel env
  induction fuel with
  | zero =>
    intro t r hr
    cases hp : (env t).is_paused with
    | true => simp [pauseWait, hp] at hr
    | false =>
      have ht : t = r := by simpa [pauseWait, hp] using hr
      rwa [← ht]
  | succ n ih =>
    intro t r hr
    cases hp : (env t).is_paused with
    | true => exact ih (t + 1) r (by simpa [pauseWait, hp] using hr)
    | false =>
      have ht : t = r := by simpa [pauseWait, hp] using hr
      rwa [← ht]

/-- Claim C1 (amended): the pause-wait loop polls `is_paused` once per
second and exits exactly when `is_paused` becomes false — immediately when
already false, never while it stays true, regardless of `is_running` or
the stop file; a stop issued while paused is observed only after resume. -/
theorem c1_pause_wait_only_observes_resume (fuel : Nat) (env : Nat → LoopEnv) (t : Nat) :
    ((env t).is_paused = false → pauseWait fuel env t = some t) ∧
    (∀ r, pauseWait fuel env t = some r → (env r).is_paused = false) ∧
    ((∀ k, (env k).is_paused = true) → pauseWait fuel env t = none) := by
  refine ⟨fun h => ?_, fun r hr => pauseWait_exit_unpaused fuel env t r hr,
    pauseWait_allPaused fuel env t⟩
  cases fuel <;> simp [pauseWait, h]

/-- Claim C1 (witness). -/
theorem c1_witness :
    pauseWait 2 (fun _ => { is_paused := false, is_running := false, controlFile := true }) 0 =
      some 0 :=
  (c1_pause_wait_only_observes_resume 2 _ 0).1 rfl

/-! ## Claim C2: the paused-implies-running invariant -/

/-- Claim C2 (counterexample): the invariant fails.  Start the script,
pause it, then take the exit-confirmation branch of menu choice 6
(create the stop file, set `is_running = False`, lines 301-304): the
resulting state has `paused` true and `running` false, because no stop
path clears `is_paused`. -/
theorem c2_counterexample : ¬ PausedOnlyWhileRunning := by
  intro h
  have := h [Cmd.start 0, Cmd.pauseToggle 1, Cmd.exitConfirm] (by decide)
  exact absurd this (by decide)

/-- Claim C2 (amended): `paused` can only be raised while `running` is
true — the pause toggle is the only transition setting it and is guarded
by `is_running` — but the stop transitions clear `running` without
clearing `paused`, so a state with `paused` true and `running` false is
reachable (transiently, until the process exits). -/
theorem c2_paused_set_only_while_running (s : MState) (c : Cmd)
    (h : s.paused = false) (h2 : (menuStep s c).paused = true) : s.running = true := by
  cases c <;> simp only [menuStep] at h2 <;> first
    | (split at h2 <;> simp_all)
    | simp_all

/-- Claim C2 (witness). -/
theorem c2_witness :
    ({ running := true, paused := false, interval := 300, startTime := some 0,
       pausedTime := none, controlFile := false } : MState).running = true :=
  c2_paused_set_only_while_running _ (Cmd.pauseToggle 1) rfl (by decide)

/-! ## Claim C3: interval modification -/

/-- Claim C3: every input string the user can type determines one outcome
of the `int()` call at the boundary — `some n` or `ValueError` — and over
every state and every such outcome, `modify_interval` changes the interval
iff the script is neither running nor paused and the input parsed as an
integer strictly greater than 0, in which case the new interval is that
integer and a confirmation is shown; in every other case (running or
paused, `ValueError`, or a non-positive integer) the interval is unchanged
and one of the three rejection messages is rendered. -/
theorem c3_modify_interval_correct (is_running is_paused : Bool) (interval : Int)
    (parsedInput : Option Int) :
    (∀ n : Int, is_running = false → is_paused = false → parsedInput = some n → 0 < n →
      modify_interval is_running is_paused interval parsedInput =
        (n, "Interval set to " ++ toString n ++ " seconds.")) ∧
    ((is_running = true ∨ is_paused = true ∨ parsedInput = none ∨
        (∃ n, parsedInput = some n ∧ n ≤ 0)) →
      (modify_interval is_running is_paused interval parsedInput).1 = interval ∧
      (modify_interval is_running is_paused interval parsedInput).2 ∈ rejectionMessages) := by
  constructor
  · intro n hr hp hparse hpos
    subst hr; subst hp; subst hparse
    simp [modify_interval, hpos]
  · intro hcase
    rcases hcase with h | h | h | ⟨n, hn, hle⟩
    · subst h; simp [modify_interval, rejectionMessages]
    · subst h; simp [modify_interval, rejectionMessages]
    · subst h
      cases is_running <;> cases is_paused <;> simp [modify_interval, rejectionMessages]
    · subst hn
      cases is_running <;> cases is_paused <;>
        simp [modify_interval, rejectionMessages, not_lt.mpr hle]

/-- Claim C3 (witness): the outcome `int("60") = 60` accepted, and the
outcome `ValueError` (e.g. input `"abc"`) rejected without change. -/
theorem c3_witness :
    modify_interval false false 300 (some 60) =
      (60, "Interval set to " ++ toString (60 : Int) ++ " seconds.") ∧
    (modify_interval false false 300 none).1 = 300 :=
  ⟨(c3_modify_interval_correct false false 300 (some 60)).1 60 rfl rfl rfl (by decide),
   ((c3_modify_interval_correct false false 300 none).2 (Or.inr (Or.inr (Or.inl rfl)))).1⟩

/-! ## Claim C4: interval positivity -/

/-- Claim C4 (counterexample): `argparse` performs no positivity check, so
`--interval -5` makes `-5` the session interval, refuting the claim that a
non-positive interval never becomes the session interval. -/
theorem c4_counterexample : ¬ CliIntervalAlwaysPositive := by
  intro h
  have := h (some (-5))
  exact absurd this (by decide)

/-- Claim C4 (amended): the default interval is the positive 300, a
positive CLI value yields a positive initial interval, and
`modify_interval` preserves positivity; but the CLI flag itself accepts
any integer unchecked, so positivity of the session interval holds only
when the flag, if given, is positive. -/
theorem c4_interval_positivity_amended :
    parse_arguments none = 300 ∧
    (∀ n : Int, 0 < n → 0 < parse_arguments (some n)) ∧
    (∀ (is_running is_paused : Bool) (interval : Int) (parsedInput : Option Int),
      0 < interval → 0 < (modify_interval is_running is_paused interval parsedInput).1) := by
  refine ⟨rfl, fun n hn => hn, fun is_running is_paused interval parsedInput hi => ?_⟩
  cases is_running <;> cases is_paused <;> simp only [modify_interval] <;> try exact hi
  cases parsedInput with
  | none => simpa using hi
  | some n =>
    by_cases hn : 0 < n
    · simp [hn]
    · simpa [hn] using hi

/-- Claim C4 (witness). -/
theorem c4_witness :
    0 < parse_arguments (some 60) ∧ 0 < (modify_interval false false 300 (some 0)).1 :=
  ⟨c4_interval_positivity_amended.2.1 60 (by decide),
   c4_interval_positivity_amended.2.2 false false 300 (some 0) (by decide)⟩

/-! ## Claim C5: the shutdown sequence -/

/-- Claim C5 (counterexample): `stop_script` never returns normally.  Even
at the UI-driven call sites `stop_script(None, None)` — which the claim
says must return so the menu can continue — it invokes `sys.exit(0)`
(line 96); on the background loop thread the resulting `SystemExit` only
ends that thread, which is why the menu survives, but the function does
not return normally in any invocation. -/
theorem c5_counterexample : ¬ UIStopReturnsNormally := by
  intro h
  exact absurd (h ⟨true, true⟩) (by decide)

/-- Claim C5 (amended): every invocation of `stop_script` — whatever
`signum` is — logs the stop event first, clears `is_running`, removes the
stop file if present and then the log file if present (logging each
removal, in that order), and then always invokes `sys.exit(0)` instead of
returning normally. -/
theorem c5_stop_script_effects (signum : Option Int) (fs : FileSys) :
    stop_script signum fs =
      { is_running := false
        fs := ⟨false, false⟩
        events := "Stopping script..." ::
          ((if fs.control then ["Removed " ++ CONTROL_FILE] else []) ++
            (if fs.logFile then ["Removed " ++ LOG_FILE] else []))
        callsSysExit := true } :=
  rfl

/-! ## Claim C6: elapsed time is frozen while paused -/

/-- Claim C6: while paused, the elapsed-time value is `pausedAt − startedAt`
independently of the observation time, so any two observations within the
same pause interval agree; and with no session ever started the readout is
the fixed `"N/A"` placeholder. -/
theorem c6_elapsed_constant_while_paused (s p t1 t2 : Int) (h : t1 < t2) :
    get_elapsed_time (some s) (some p) t1 = some (p - s) ∧
    get_elapsed_time (some s) (some p) t2 = some (p - s) ∧
    get_elapsed_time (some s) (some p) t1 = get_elapsed_time (some s) (some p) t2 ∧
    (∀ (paused_time : Option Int) (now : Int), elapsedReadout none paused_time now = "N/A") := by
  refine ⟨?_, ?_, ?_, fun paused_time now => rfl⟩ <;> simp [get_elapsed_time]

/-- Claim C6 (witness). -/
theorem c6_witness : get_elapsed_time (some 0) (some 5) 6 = some (5 - 0) :=
  (c6_elapsed_constant_while_paused 0 5 6 7 (by decide)).1

/-! ## Claim C7: the log viewer -/

/-- Claim C7: for any log lines (as the logger writes them: no surrounding
whitespace, one trailing newline each), the viewer renders exactly those
lines in file order; for a missing log file it renders the fixed
explanatory message. -/
theorem c7_display_log_exact (bodies : List String)
    (h : ∀ b ∈ bodies, pyStrip b = b) :
    display_log (some (bodies.map (fun b => b ++ "\n"))) = bodies ∧
    display_log none = ["Log file does not exist. No logs to display."] := by
  refine ⟨?_, rfl⟩
  induction bodies with
  | nil => rfl
  | cons b bs ih =>
    have hb : pyStrip (b ++ "\n") = b := by
      rw [pyStrip_append_newline]
      exact h b (List.mem_cons_self b bs)
    have hbs := ih (fun x hx => h x (List.mem_cons_of_mem b hx))
    simpa [display_log, hb] using hbs

/-- Claim C7 (witness). -/
theorem c7_witness :
    display_log (some (["2024-01-01 00:00:00: Starting script...",
      "2024-01-01 00:00:01: Window not found!"].map (fun b => b ++ "\n"))) =
      ["2024-01-01 00:00:00: Starting script...",
       "2024-01-01 00:00:01: Window not found!"] :=
  (c7_display_log_exact _ (by decide)).1

/-! ## Claim C8: window absent for the whole run -/

/-- Claim C8: if every lookup of the run yields no usable handle (a failed
command or an empty id), no cycle ever invokes the interaction; every one
of the `n` cycles produces exactly the not-found event (logged and
surfaced to the UI) and the loop runs all `n` cycles without error. -/
theorem c8_window_absent_no_interaction (lookups : Nat → Option String) (n : Nat)
    (h : ∀ k, k < n → truthy (find_window_id (lookups k)) = false) :
    (∀ e ∈ runCycles lookups n, e = CycleEvent.notFound) ∧
    (∀ windowId, CycleEvent.interacted windowId ∉ runCycles lookups n) ∧
    (runCycles lookups n).length = n := by
  have hall : ∀ e ∈ runCycles lookups n, e = CycleEvent.notFound := by
    intro e he
    obtain ⟨k, hk, rfl⟩ := List.mem_map.mp he
    have hk' : k < n := List.mem_range.mp hk
    simp [cycleBody, h k hk']
  refine ⟨hall, fun windowId hmem => ?_, by simp [runCycles]⟩
  exact CycleEvent.noConfusion (hall _ hmem)

/-- Claim C8 (witness). -/
theorem c8_witness :
    (∀ e ∈ runCycles (fun _ => none) 2, e = CycleEvent.notFound) ∧
    (runCycles (fun _ => none) 2).length = 2 :=
  ⟨(c8_window_absent_no_interaction (fun _ => none) 2 (fun _ _ => rfl)).1,
   (c8_window_absent_no_interaction (fun _ => none) 2 (fun _ _ => rfl)).2.2⟩

/-! ## Claim C9: resume discards the accumulated pause -/

/-- Claim C9: the resume branch of menu choice 5 sets `paused_time` to
`None` (line 287), after which the elapsed time is the full `now − startedAt`
with the pause period re-included: immediately after a resume at time `r`
of a pause begun at `p`, the value jumps from `p − s` to
`(p − s) + (r − p)`, i.e. forward by the pause duration. -/
theorem c9_resume_discards_pause (st : MState) (now s p r : Int)
    (hrun : st.running = true) (hp : st.paused = true) :
    (menuStep st (Cmd.pauseToggle now)).pausedTime = none ∧
    (menuStep st (Cmd.pauseToggle now)).paused = false ∧
    get_elapsed_time (some s) (some p) r = some (p - s) ∧
    get_elapsed_time (some s) none r = some (r - s) ∧
    r - s = (p - s) + (r - p) := by
  refine ⟨?_, ?_, by simp [get_elapsed_time], rfl, by ring⟩ <;>
    simp [menuStep, hrun, hp]

/-- Claim C9 (witness). -/
theorem c9_witness :
    (menuStep ⟨true, true, 300, some 0, some 10, false⟩ (Cmd.pauseToggle 15)).pausedTime = none ∧
    get_elapsed_time (some 0) none 15 = some (15 - 0) := by
  have h := c9_resume_discards_pause ⟨true, true, 300, some 0, some 10, false⟩ 15 0 10 15 rfl rfl
  exact ⟨h.1, h.2.2.2.1⟩

/-! ## Claim C10: the window locator's result -/

/-- Claim C10: on a successful lookup the code returns the first line of
the (stripped) command output — so with multiple handles only the first is
used; empty output yields the empty string, which the caller's truthiness
test treats as not found, invoking no interaction; a non-zero exit yields
`None`, likewise treated as not found. -/
theorem c10_find_window_id_first_line :
    (∀ out, find_window_id (some out) = some (firstLineSpec (pyStrip out))) ∧
    (∀ out, pyStrip out = out → find_window_id (some out) = some (firstLineSpec out)) ∧
    find_window_id (some "111\n222\n") = some "111" ∧
    find_window_id (some "") = some "" ∧
    truthy (find_window_id (some "")) = false ∧
    cycleBody (find_window_id (some "")) = CycleEvent.notFound ∧
    find_window_id none = none ∧
    cycleBody (find_window_id none) = CycleEvent.notFound := by
  refine ⟨fun out => rfl, fun out h => ?_, by decide, rfl, rfl, rfl, rfl, rfl⟩
  calc find_window_id (some out) = some (firstLineSpec (pyStrip out)) := rfl
    _ = some (firstLineSpec out) := by rw [h]

/-- Claim C10 (witness). -/
theorem c10_witness :
    find_window_id (some "123\n456") = some (firstLineSpec "123\n456") :=
  c10_find_window_id_first_line.2.1 "123\n456" rfl

end KeepActive
